import Mathlib

/-!
# Verification of the service-endpoint layer (`async-nats/src/service/endpoint.rs`)

Shallow embedding of the `Endpoint` request stream, its `poll_next`
implementation, `Endpoint::stop`, and the stats record projection
(`impl From<Inner> for Stats`), together with theorems settling the
frozen claims about the natural-language specification.

Modelling conventions:
* Machine integers (`usize`, counters, `sid`) are `Nat`.
* `std::time::Instant` / `Duration` are nanosecond counts as `Nat`.
* `Arc` handles (`stats`, `client`) are identities as `Nat`: cloning an
  `Arc` yields the same identity.
* The behaviour of the external collaborators during one `poll_next`
  call (does the shutdown wait resolve, what does the subscription
  stream return, does `try_send` succeed) is an input to the step
  function, exactly as the real poll observes it through `cx`.
* The shutdown wait is `Box::pin(async move { receiver.recv().await })`:
  a compiler-generated coroutine.  Polling such a future again after it
  has returned `Ready` panics ("future polled after completion"); the
  embedding makes that panic explicit as an outcome.
-/

namespace Nats

/-- A raw inbound message delivered by the transport for the subject. -/
abbrev Message := String

/-- Control commands sent over the subscriber's command channel.  Only the
`Unsubscribe` variant is used by this module; `max = none` requests
immediate cutoff. -/
inductive Command where
  | unsubscribe (sid : Nat) (max : Option Nat)
deriving DecidableEq, Repr

/-- The `Subscriber` handle owned by the endpoint: its subscription id and
the contents successfully enqueued on its command channel through
`sender.try_send`. -/
structure Subscriber where
  sid : Nat
  sender : List Command
deriving DecidableEq, Repr

/-- State of the boxed shutdown future `shutdown_future` once it exists:
either still running (its `recv().await` has not resolved) or completed
(it returned `Ready` on an earlier poll). -/
inductive FutState where
  | running
  | completed
deriving DecidableEq, Repr

/-- What `receiver.recv().await` resolved with: `Ok(())` for a received
value, `Err(RecvError::Closed)` for channel closure, or
`Err(RecvError::Lagged(n))`.  `poll_next` binds this as `_result` and
ignores it. -/
inductive RecvResult where
  | value
  | closed
  | lagged (n : Nat)
deriving DecidableEq, Repr

/-- The `Endpoint` struct: subscriber, stats-registry handle, client
handle, endpoint name, the raw broadcast receiver (present until the
first poll takes it), and the boxed shutdown future. -/
structure Endpoint where
  requests : Subscriber
  stats : Nat
  client : Nat
  endpoint : String
  shutdown : Option Unit
  shutdown_future : Option FutState
deriving DecidableEq, Repr

/-- The `Request` yielded by the stream: issued timestamp captured at
pop time plus clones of the shared handles and the endpoint name. -/
structure Request where
  issued : Nat
  stats : Nat
  client : Nat
  message : Message
  endpoint : String
deriving DecidableEq, Repr

/-- Result of `self.requests.poll_next_unpin(cx)`: the subscription
stream reports a message, its end, or no progress. -/
inductive SubPoll where
  | ready (m : Option Message)
  | pending
deriving DecidableEq, Repr

/-- Environment of one `poll_next` invocation, as observed through `cx`:
whether the armed shutdown wait resolves now (and with what), whether
`try_send` on the command channel would succeed, what the subscription
stream returns, the clock at entry to the poll, and the time elapsed
until the `Instant::now()` call inside it. -/
structure PollInput where
  resolve : Option RecvResult
  trySendOk : Bool
  sub : SubPoll
  tEntry : Nat
  tElapsed : Nat
deriving DecidableEq, Repr

/-- Reasons a `poll_next` call panics. -/
inductive Panic where
  /-- The boxed async block `shutdown_future` was polled again after it
  had already returned `Ready`; a coroutine resumed after completion
  panics. -/
  | futurePolledAfterCompletion
  /-- Calling `self.shutdown.take().unwrap()` on `None`. -/
  | unwrapOnNone
deriving DecidableEq, Repr

/-- What one `poll_next` call returns: `Poll::Ready(Some(request))`,
`Poll::Ready(None)`, `Poll::Pending`, or a panic. -/
inductive PollOutcome where
  | item (r : Request)
  | done
  | pending
  | panicked (p : Panic)
deriving DecidableEq, Repr

/-- Which operations a single `poll_next` call performed: whether it
polled the shutdown future, whether it reached the `try_send` of the
unsubscribe command, and whether it polled the subscription stream. -/
structure Events where
  polledWait : Bool
  triedUnsub : Bool
  polledSource : Bool
deriving DecidableEq, Repr

/-- State, return value and performed operations of one `poll_next`. -/
structure StepResult where
  state : Endpoint
  out : PollOutcome
  ev : Events
deriving DecidableEq, Repr

/-- The second half of `poll_next` (from `trace!("checking for new
messages")` on): poll the subscription stream; wrap a message into a
`Request` stamped with `Instant::now()` and clones of the handles, pass
through its end, or report `Pending`.  `pw`/`tu` record whether the
shutdown-wait half polled the wait and reached `try_send`. -/
def pollSource (s : Endpoint) (i : PollInput) (pw tu : Bool) : StepResult :=
  match i.sub with
  | .ready (some m) =>
      { state := s
        out := .item
          { issued := i.tEntry + i.tElapsed
            stats := s.stats
            client := s.client
            message := m
            endpoint := s.endpoint }
        ev := { polledWait := pw, triedUnsub := tu, polledSource := true } }
  | .ready none =>
      { state := s
        out := .done
        ev := { polledWait := pw, triedUnsub := tu, polledSource := true } }
  | .pending =>
      { state := s
        out := .pending
        ev := { polledWait := pw, triedUnsub := tu, polledSource := true } }

/-- The body of `Endpoint::poll_next`.  First the shutdown half: if the boxed future
exists, poll it — a completed future panics; a running one that resolves
(value or closure alike) triggers a best-effort
`try_send(Command::Unsubscribe { sid, max: None }).ok()` whose failure
is discarded, and the future is left in place, now completed.  If the
future does not exist yet, take the raw receiver and box a new wait
without polling it.  Then the message half (`pollSource`) runs. -/
def pollNext (s : Endpoint) (i : PollInput) : StepResult :=
  match s.shutdown_future with
  | some .completed =>
      { state := s
        out := .panicked .futurePolledAfterCompletion
        ev := { polledWait := true, triedUnsub := false, polledSource := false } }
  | some .running =>
      match i.resolve with
      | some _ =>
          let sender' :=
            if i.trySendOk then
              s.requests.sender ++ [Command.unsubscribe s.requests.sid none]
            else
              s.requests.sender
          pollSource
            { s with
                shutdown_future := some .completed
                requests := { s.requests with sender := sender' } }
            i true true
      | none => pollSource s i true false
  | none =>
      match s.shutdown with
      | some _ =>
          pollSource
            { s with shutdown := none, shutdown_future := some .running }
            i false false
      | none =>
          { state := s
            out := .panicked .unwrapOnNone
            ev := { polledWait := false, triedUnsub := false, polledSource := false } }

/-- An `Endpoint` as constructed at service-endpoint registration: raw
shutdown receiver present, no boxed future yet, nothing enqueued by this
endpoint on the command channel. -/
def initEndpoint (sid st cl : Nat) (nm : String) : Endpoint :=
  { requests := { sid := sid, sender := [] }
    stats := st
    client := cl
    endpoint := nm
    shutdown := some ()
    shutdown_future := none }

/-- Drive the stream through a sequence of polls.  A panic aborts the
task, so the run stops at (and records) the first panicking step. -/
def run (s : Endpoint) : List PollInput → List StepResult
  | [] => []
  | i :: is =>
      let r := pollNext s i
      match r.out with
      | .panicked _ => [r]
      | _ => r :: run r.state is

/-- The endpoint state after driving the stream through a sequence of
polls (state as at the panic, if one occurred). -/
def runState (s : Endpoint) : List PollInput → Endpoint
  | [] => s
  | i :: is =>
      let r := pollNext s i
      match r.out with
      | .panicked _ => r.state
      | _ => runState r.state is

/-- The raw messages the subscription stream delivered over a sequence
of polls. -/
def delivered (is : List PollInput) : List Message :=
  is.filterMap fun i =>
    match i.sub with
    | .ready (some m) => some m
    | _ => none

/-- The `Request` items a sequence of poll results yielded. -/
def yielded (rs : List StepResult) : List Request :=
  rs.filterMap fun r =>
    match r.out with
    | .item q => some q
    | _ => none

/-- A handler-reported error recorded in the stats (`error::Error`):
status code and description. -/
structure SvcError where
  code : Nat
  description : String
deriving DecidableEq, Repr

/-- The `Schema` record: free-form descriptions of request and response formats. -/
structure Schema where
  request : String
  response : String
deriving DecidableEq, Repr

/-- The internal per-endpoint stats record `Inner` (durations in
nanoseconds, metadata as an association list). -/
structure Inner where
  kind : String
  name : String
  subject : String
  metadata : List (String × String)
  requests : Nat
  errors : Nat
  processing_time : Nat
  average_processing_time : Nat
  last_error : Option SvcError
  data : String
  schema : Option Schema
deriving DecidableEq, Repr

/-- The public stats snapshot `Stats`: the same fields as `Inner`
without `schema`. -/
structure Stats where
  kind : String
  name : String
  subject : String
  metadata : List (String × String)
  requests : Nat
  errors : Nat
  processing_time : Nat
  average_processing_time : Nat
  last_error : Option SvcError
  data : String
deriving DecidableEq, Repr

/-- The projection `impl From<Inner> for Stats`: move every field across, dropping
`schema`. -/
def Stats.ofInner (inner : Inner) : Stats :=
  { kind := inner.kind
    name := inner.name
    subject := inner.subject
    metadata := inner.metadata
    requests := inner.requests
    errors := inner.errors
    processing_time := inner.processing_time
    average_processing_time := inner.average_processing_time
    last_error := inner.last_error
    data := inner.data }

/-- The kinds of `std::io::ErrorKind` (the variants relevant here). -/
inductive ErrorKind where
  | other
  | notFound
  | permissionDenied
deriving DecidableEq, Repr

/-- A `std::io::Error` value: kind plus message. -/
structure IoError where
  kind : ErrorKind
  message : String
deriving DecidableEq, Repr

/-- An opaque transport-level error. -/
structure TransportError where
  detail : String
deriving DecidableEq, Repr

/-- The stats registry `Endpoints` guarded by the mutex: endpoint name
to internal record. -/
abbrev Endpoints := List (String × Inner)

/-- The body of `Endpoint::stop`.  Modelled from the spec: `Subscriber::unsubscribe`
is not part of this module; per §6 it is
`await_unsubscribe(subscription id) → Result<(), TransportError>`, so
its outcome is taken as the `transport` argument.  The body (from the
source) maps any transport error to
`std::io::Error::new(ErrorKind::Other, "failed to unsubscribe")` and
touches nothing else: `reg` is the stats registry reachable through
`self.stats`, returned as held after the call. -/
def stop (reg : Endpoints) (transport : Except TransportError Unit) :
    Endpoints × Except IoError Unit :=
  ( reg
  , match transport with
    | .ok _ => .ok ()
    | .error _ => .error { kind := .other, message := "failed to unsubscribe" } )

/-! ## Basic step lemmas -/

/-- The message half of a poll never changes the endpoint state it is
given. -/
@[simp]
lemma pollSource_state (s : Endpoint) (i : PollInput) (pw tu : Bool) :
    (pollSource s i pw tu).state = s := by
  rcases i with ⟨res, ts, sub, t1, t2⟩
  rcases sub with m | _
  · rcases m with _ | m <;> rfl
  · rfl

/-- The message half of a poll never panics. -/
lemma pollSource_out_ne_panicked (s : Endpoint) (i : PollInput) (pw tu : Bool)
    (p : Panic) : (pollSource s i pw tu).out ≠ .panicked p := by
  rcases i with ⟨res, ts, sub, t1, t2⟩
  rcases sub with m | _
  · rcases m with _ | m <;> simp [pollSource]
  · simp [pollSource]

/-- The message half of a poll always polls the subscription stream. -/
@[simp]
lemma pollSource_polledSource (s : Endpoint) (i : PollInput) (pw tu : Bool) :
    (pollSource s i pw tu).ev.polledSource = true := by
  rcases i with ⟨res, ts, sub, t1, t2⟩
  rcases sub with m | _
  · rcases m with _ | m <;> rfl
  · rfl

/-- Unfolding a non-empty run of `runState`. -/
lemma runState_cons (s : Endpoint) (i : PollInput) (is : List PollInput) :
    runState s (i :: is) =
      match (pollNext s i).out with
      | .panicked _ => (pollNext s i).state
      | _ => runState (pollNext s i).state is := by
  rfl

/-- Unfolding a non-empty run of `run`. -/
lemma run_cons (s : Endpoint) (i : PollInput) (is : List PollInput) :
    run s (i :: is) =
      match (pollNext s i).out with
      | .panicked _ => [pollNext s i]
      | _ => pollNext s i :: run (pollNext s i).state is := by
  rfl

/-! ## C1: at most one unsubscribe command -/

/-- Invariant tying the commands this endpoint has enqueued to the state
of its shutdown future: before the future has completed nothing has been
enqueued, and never more than one command in total. -/
def cmdInv (s : Endpoint) : Prop :=
  s.requests.sender.length ≤ 1 ∧
    (s.shutdown_future ≠ some .completed → s.requests.sender = [])

/-- One poll step preserves `cmdInv`: the only `try_send` site runs on
the single `running → completed` transition of the shutdown future, and
a completed future panics when polled, enqueueing nothing. -/
lemma pollNext_cmdInv (s : Endpoint) (i : PollInput) (h : cmdInv s) :
    cmdInv (pollNext s i).state := by
  obtain ⟨h1, h2⟩ := h
  unfold cmdInv
  rcases hf : s.shutdown_future with _ | fs
  · rcases hs : s.shutdown with _ | u
    · simp only [pollNext, hf, hs]
      exact ⟨h1, fun _ => h2 (by simp [hf])⟩
    · simp only [pollNext, hf, hs, pollSource_state]
      exact ⟨h1, fun _ => h2 (by simp [hf])⟩
  · rcases fs with _ | _
    · rcases hr : i.resolve with _ | r
      · simp only [pollNext, hf, hr, pollSource_state]
        exact ⟨h1, fun _ => h2 (by simp [hf])⟩
      · have hempty : s.requests.sender = [] := h2 (by simp [hf])
        simp only [pollNext, hf, hr, pollSource_state]
        rcases ht : i.trySendOk with _ | _ <;> simp [ht, hempty]
    · simp only [pollNext, hf]
      exact ⟨h1, fun hne => absurd rfl hne⟩

/-- The invariant `cmdInv` is preserved along any run. -/
lemma runState_cmdInv (is : List PollInput) (s : Endpoint) (h : cmdInv s) :
    cmdInv (runState s is) := by
  induction is generalizing s with
  | nil => simpa [runState] using h
  | cons i is ih =>
    rw [runState_cons]
    rcases ho : (pollNext s i).out with q | _ | _ | p
    · exact ih _ (pollNext_cmdInv s i h)
    · exact ih _ (pollNext_cmdInv s i h)
    · exact ih _ (pollNext_cmdInv s i h)
    · exact pollNext_cmdInv s i h

/-- C1: across the whole lifetime of an endpoint — any sequence of polls
from the freshly registered state, however often the shutdown signal
fires and however often the stream is polled after the wait has resolved
— the poll path enqueues at most one unsubscribe command on the
subscriber's command channel. -/
theorem endpoint_at_most_one_unsubscribe (sid st cl : Nat) (nm : String)
    (is : List PollInput) :
    (runState (initEndpoint sid st cl nm) is).requests.sender.length ≤ 1 := by
  have h : cmdInv (initEndpoint sid st cl nm) := by
    constructor <;> simp [initEndpoint]
  exact (runState_cmdInv is _ h).1

/-! ## C4: messages are yielded exactly, in order, with correct fields -/

/-- The endpoint after its arming first poll: raw receiver consumed,
shutdown future boxed and still running. -/
def armedEndpoint (sid st cl : Nat) (nm : String) : Endpoint :=
  { initEndpoint sid st cl nm with
      shutdown := none
      shutdown_future := some .running }

/-- With the wait armed and not resolving on this poll, `poll_next` is
exactly the message half on an unchanged state. -/
lemma pollNext_armed_noresolve (s : Endpoint) (i : PollInput)
    (hf : s.shutdown_future = some .running) (hr : i.resolve = none) :
    pollNext s i = pollSource s i true false := by
  simp [pollNext, hf, hr]

/-- The arming first poll boxes the future without polling it and runs
the message half. -/
lemma pollNext_init (sid st cl : Nat) (nm : String) (i : PollInput) :
    pollNext (initEndpoint sid st cl nm) i =
      pollSource (armedEndpoint sid st cl nm) i false false := by
  rfl

/-- An armed endpoint whose wait never resolves steps through the
message half with constant state. -/
lemma run_armed (s : Endpoint) (hf : s.shutdown_future = some .running)
    (is : List PollInput) (hns : ∀ i ∈ is, i.resolve = none) :
    run s is = is.map fun i => pollSource s i true false := by
  induction is with
  | nil => rfl
  | cons i is ih =>
    rw [run_cons, pollNext_armed_noresolve s i hf (hns i (by simp))]
    have hne := pollSource_out_ne_panicked s i true false
    rcases ho : (pollSource s i true false).out with q | _ | _ | p
    · simp only [ho, pollSource_state, List.map_cons]
      rw [ih fun j hj => hns j (by simp [hj])]
    · simp only [ho, pollSource_state, List.map_cons]
      rw [ih fun j hj => hns j (by simp [hj])]
    · simp only [ho, pollSource_state, List.map_cons]
      rw [ih fun j hj => hns j (by simp [hj])]
    · exact absurd ho (hne p)

/-- A full run from registration with no shutdown resolution: the
arming step, then armed steps with constant state. -/
lemma run_init_noresolve (sid st cl : Nat) (nm : String) (i : PollInput)
    (is : List PollInput) (hns : ∀ j ∈ is, j.resolve = none) :
    run (initEndpoint sid st cl nm) (i :: is) =
      pollSource (armedEndpoint sid st cl nm) i false false ::
        is.map fun j => pollSource (armedEndpoint sid st cl nm) j true false := by
  rw [run_cons, pollNext_init]
  have hne := pollSource_out_ne_panicked (armedEndpoint sid st cl nm) i false false
  rcases ho : (pollSource (armedEndpoint sid st cl nm) i false false).out
    with q | _ | _ | p
  · simp only [ho, pollSource_state]
    rw [run_armed _ rfl is hns]
  · simp only [ho, pollSource_state]
    rw [run_armed _ rfl is hns]
  · simp only [ho, pollSource_state]
    rw [run_armed _ rfl is hns]
  · exact absurd ho (hne p)

/-- Over constant-state message-half steps, the yielded messages are
exactly the delivered ones, in order. -/
lemma yielded_map_pollSource (s : Endpoint) (pw tu : Bool) (is : List PollInput) :
    (yielded (is.map fun i => pollSource s i pw tu)).map Request.message =
      delivered is := by
  induction is with
  | nil => rfl
  | cons i is ih =>
    rcases hsub : i.sub with m | _
    · rcases m with _ | m
      · simpa [yielded, delivered, pollSource, hsub] using ih
      · simpa [yielded, delivered, pollSource, hsub] using ih
    · simpa [yielded, delivered, pollSource, hsub] using ih

/-- The fields of any `Request` produced by the message half: timestamp
from this poll's `Instant::now()`, handles and name cloned from the
endpoint. -/
lemma pollSource_item_fields (s : Endpoint) (i : PollInput) (pw tu : Bool)
    (q : Request) (h : (pollSource s i pw tu).out = .item q) :
    q.stats = s.stats ∧ q.client = s.client ∧ q.endpoint = s.endpoint ∧
      q.issued = i.tEntry + i.tElapsed := by
  rcases hsub : i.sub with m | _
  · rcases m with _ | m
    · simp [pollSource, hsub] at h
    · simp only [pollSource, hsub] at h
      injection h with hq
      subst hq
      exact ⟨rfl, rfl, rfl, rfl⟩
  · simp [pollSource, hsub] at h

/-- Pointwise relation between a list and its image under a step map. -/
lemma forall2_map_self {R : PollInput → StepResult → Prop}
    (f : PollInput → StepResult) (is : List PollInput)
    (h : ∀ i ∈ is, R i (f i)) : List.Forall₂ R is (is.map f) := by
  induction is with
  | nil => simp
  | cons i is ih =>
    exact List.Forall₂.cons (h i (by simp)) (ih fun j hj => h j (by simp [hj]))

/-- C4: if the shutdown wait never resolves during a run from
registration, the stream yields exactly the raw messages the
subscription delivered, in delivery order, and every yielded `Request`
carries the shared stats handle, the client handle and the endpoint
name, with an issued timestamp captured during — hence at or after the
entry of — the poll that produced it. -/
theorem endpoint_yields_messages_in_order (sid st cl : Nat) (nm : String)
    (is : List PollInput) (hns : ∀ i ∈ is, i.resolve = none) :
    (yielded (run (initEndpoint sid st cl nm) is)).map Request.message =
        delivered is ∧
      List.Forall₂
        (fun i r => ∀ q, r.out = PollOutcome.item q →
          q.stats = st ∧ q.client = cl ∧ q.endpoint = nm ∧
            q.issued = i.tEntry + i.tElapsed ∧ i.tEntry ≤ q.issued)
        is (run (initEndpoint sid st cl nm) is) := by
  rcases is with _ | ⟨i, is⟩
  · exact ⟨rfl, by simp [run]⟩
  · have htail : ∀ j ∈ is, j.resolve = none := fun j hj => hns j (by simp [hj])
    rw [run_init_noresolve sid st cl nm i is htail]
    constructor
    · have htl := yielded_map_pollSource (armedEndpoint sid st cl nm) true false is
      rcases hsub : i.sub with m | _
      · rcases m with _ | m
        · simpa [yielded, delivered, pollSource, hsub] using htl
        · simpa [yielded, delivered, pollSource, hsub] using htl
      · simpa [yielded, delivered, pollSource, hsub] using htl
    · refine List.Forall₂.cons ?_ ?_
      · intro q hq
        obtain ⟨h1, h2, h3, h4⟩ :=
          pollSource_item_fields (armedEndpoint sid st cl nm) i false false q hq
        exact ⟨h1, h2, h3, h4, by omega⟩
      · refine forall2_map_self _ is ?_
        intro j hj q hq
        obtain ⟨h1, h2, h3, h4⟩ :=
          pollSource_item_fields (armedEndpoint sid st cl nm) j true false q hq
        exact ⟨h1, h2, h3, h4, by omega⟩

/-- Concrete first poll input for the two-message run: message "m1"
available, clock 10 at entry, 1 ns until the timestamp is taken. -/
def c4in1 : PollInput :=
  { resolve := none
    trySendOk := true
    sub := .ready (some "m1")
    tEntry := 10
    tElapsed := 1 }

/-- Concrete second poll input: message "m2" available at clock 12. -/
def c4in2 : PollInput :=
  { resolve := none
    trySendOk := false
    sub := .ready (some "m2")
    tEntry := 12
    tElapsed := 0 }

/-- Witness for C4: a concrete two-message run in which the stream
yields exactly "m1" then "m2" with the handles and timestamps of the
claim. -/
theorem endpoint_yields_messages_in_order_witness :
    (∀ i ∈ [c4in1, c4in2], i.resolve = none) ∧
      ((yielded (run (initEndpoint 1 2 3 "orders.process") [c4in1, c4in2])).map
            Request.message = delivered [c4in1, c4in2] ∧
        List.Forall₂
          (fun i r => ∀ q, r.out = PollOutcome.item q →
            q.stats = 2 ∧ q.client = 3 ∧ q.endpoint = "orders.process" ∧
              q.issued = i.tEntry + i.tElapsed ∧ i.tEntry ≤ q.issued)
          [c4in1, c4in2]
          (run (initEndpoint 1 2 3 "orders.process") [c4in1, c4in2])) :=
  ⟨by decide,
    endpoint_yields_messages_in_order 1 2 3 "orders.process" [c4in1, c4in2]
      (by decide)⟩

/-! ## C7 and C8: the resolving poll -/

/-- The events recorded by the message half. -/
@[simp]
lemma pollSource_ev (s : Endpoint) (i : PollInput) (pw tu : Bool) :
    (pollSource s i pw tu).ev =
      { polledWait := pw, triedUnsub := tu, polledSource := true } := by
  rcases i with ⟨res, ts, sub, t1, t2⟩
  rcases sub with m | _
  · rcases m with _ | m <;> rfl
  · rfl

/-- C7: when the armed wait resolves and the best-effort `try_send` of
the unsubscribe command fails, the failure is discarded: the poll does
not panic, returns exactly what it returns in the success case, still
polls the subscription stream, and the resulting state differs from the
success case only in the command channel's contents. -/
theorem unsubscribe_enqueue_failure_swallowed (s : Endpoint) (i : PollInput)
    (r : RecvResult) (hf : s.shutdown_future = some FutState.running)
    (hr : i.resolve = some r) :
    (pollNext s { i with trySendOk := false }).out =
        (pollNext s { i with trySendOk := true }).out ∧
      (∀ p, (pollNext s { i with trySendOk := false }).out ≠ .panicked p) ∧
      (pollNext s { i with trySendOk := false }).ev.polledSource = true ∧
      (pollNext s { i with trySendOk := false }).state =
        { (pollNext s { i with trySendOk := true }).state with
            requests := { sid := s.requests.sid, sender := s.requests.sender } } := by
  rcases i with ⟨res, ts, sub, t1, t2⟩
  simp only [PollInput.resolve] at hr
  subst hr
  refine ⟨?_, ?_, ?_, ?_⟩
  · rcases sub with m | _
    · rcases m with _ | m <;> simp [pollNext, hf, pollSource]
    · simp [pollNext, hf, pollSource]
  · intro p
    rcases sub with m | _
    · rcases m with _ | m <;> simp [pollNext, hf, pollSource]
    · simp [pollNext, hf, pollSource]
  · rcases sub with m | _
    · rcases m with _ | m <;> simp [pollNext, hf, pollSource]
    · simp [pollNext, hf, pollSource]
  · rcases sub with m | _
    · rcases m with _ | m <;> simp [pollNext, hf, pollSource]
    · simp [pollNext, hf, pollSource]

/-- Witness for C7 at a concrete armed endpoint and resolving input. -/
theorem unsubscribe_enqueue_failure_swallowed_witness :
    (armedEndpoint 7 2 3 "ep").shutdown_future = some FutState.running ∧
      (PollInput.mk (some RecvResult.closed) true (.ready (some "m")) 5 2).resolve =
        some RecvResult.closed ∧
      ((pollNext (armedEndpoint 7 2 3 "ep")
            { PollInput.mk (some RecvResult.closed) true (.ready (some "m")) 5 2 with
                trySendOk := false }).out =
          (pollNext (armedEndpoint 7 2 3 "ep")
            { PollInput.mk (some RecvResult.closed) true (.ready (some "m")) 5 2 with
                trySendOk := true }).out ∧
        (∀ p, (pollNext (armedEndpoint 7 2 3 "ep")
            { PollInput.mk (some RecvResult.closed) true (.ready (some "m")) 5 2 with
                trySendOk := false }).out ≠ .panicked p) ∧
        (pollNext (armedEndpoint 7 2 3 "ep")
            { PollInput.mk (some RecvResult.closed) true (.ready (some "m")) 5 2 with
                trySendOk := false }).ev.polledSource = true ∧
        (pollNext (armedEndpoint 7 2 3 "ep")
            { PollInput.mk (some RecvResult.closed) true (.ready (some "m")) 5 2 with
                trySendOk := false }).state =
          { (pollNext (armedEndpoint 7 2 3 "ep")
                { PollInput.mk (some RecvResult.closed) true (.ready (some "m")) 5 2 with
                    trySendOk := true }).state with
              requests :=
                { sid := (armedEndpoint 7 2 3 "ep").requests.sid
                  sender := (armedEndpoint 7 2 3 "ep").requests.sender } }) :=
  ⟨rfl, rfl,
    unsubscribe_enqueue_failure_swallowed (armedEndpoint 7 2 3 "ep")
      (PollInput.mk (some RecvResult.closed) true (.ready (some "m")) 5 2)
      RecvResult.closed rfl rfl⟩

/-- C8: a wait resolved by channel closure is handled exactly like one
resolved by a received value (or a lag report): the step results are
identical, the future transitions to its completed ("fired") state, the
immediate-cutoff unsubscribe command (`max = none`) is attempted — and
enqueued whenever `try_send` succeeds — and no panic is raised. -/
theorem shutdown_closure_equals_value (s : Endpoint) (i : PollInput)
    (r1 r2 : RecvResult) (hf : s.shutdown_future = some FutState.running) :
    pollNext s { i with resolve := some r1 } =
        pollNext s { i with resolve := some r2 } ∧
      (pollNext s { i with resolve := some r1 }).state.shutdown_future =
        some FutState.completed ∧
      (pollNext s { i with resolve := some r1 }).ev.triedUnsub = true ∧
      (i.trySendOk = true →
        (pollNext s { i with resolve := some r1 }).state.requests.sender =
          s.requests.sender ++ [Command.unsubscribe s.requests.sid none]) ∧
      ∀ p, (pollNext s { i with resolve := some r1 }).out ≠ .panicked p := by
  rcases i with ⟨res, ts, sub, t1, t2⟩
  refine ⟨?_, ?_, ?_, ?_, ?_⟩
  · rcases sub with m | _
    · rcases m with _ | m <;> simp [pollNext, hf, pollSource]
    · simp [pollNext, hf, pollSource]
  · rcases sub with m | _
    · rcases m with _ | m <;> simp [pollNext, hf, pollSource]
    · simp [pollNext, hf, pollSource]
  · rcases sub with m | _
    · rcases m with _ | m <;> simp [pollNext, hf, pollSource]
    · simp [pollNext, hf, pollSource]
  · intro ht
    simp only [PollInput.trySendOk] at ht
    subst ht
    rcases sub with m | _
    · rcases m with _ | m <;> simp [pollNext, hf, pollSource]
    · simp [pollNext, hf, pollSource]
  · intro p
    rcases sub with m | _
    · rcases m with _ | m <;> simp [pollNext, hf, pollSource]
    · simp [pollNext, hf, pollSource]

/-- Witness for C8 at a concrete armed endpoint, comparing closure with
a received value. -/
theorem shutdown_closure_equals_value_witness :
    (armedEndpoint 7 2 3 "ep").shutdown_future = some FutState.running ∧
      (pollNext (armedEndpoint 7 2 3 "ep")
          { PollInput.mk none true SubPoll.pending 5 0 with
              resolve := some RecvResult.closed } =
        pollNext (armedEndpoint 7 2 3 "ep")
          { PollInput.mk none true SubPoll.pending 5 0 with
              resolve := some RecvResult.value } ∧
      (pollNext (armedEndpoint 7 2 3 "ep")
          { PollInput.mk none true SubPoll.pending 5 0 with
              resolve := some RecvResult.closed }).state.shutdown_future =
        some FutState.completed ∧
      (pollNext (armedEndpoint 7 2 3 "ep")
          { PollInput.mk none true SubPoll.pending 5 0 with
              resolve := some RecvResult.closed }).ev.triedUnsub = true ∧
      ((PollInput.mk none true SubPoll.pending 5 0).trySendOk = true →
        (pollNext (armedEndpoint 7 2 3 "ep")
            { PollInput.mk none true SubPoll.pending 5 0 with
                resolve := some RecvResult.closed }).state.requests.sender =
          (armedEndpoint 7 2 3 "ep").requests.sender ++
            [Command.unsubscribe (armedEndpoint 7 2 3 "ep").requests.sid none]) ∧
      ∀ p, (pollNext (armedEndpoint 7 2 3 "ep")
          { PollInput.mk none true SubPoll.pending 5 0 with
              resolve := some RecvResult.closed }).out ≠ .panicked p) :=
  ⟨rfl,
    shutdown_closure_equals_value (armedEndpoint 7 2 3 "ep")
      (PollInput.mk none true SubPoll.pending 5 0)
      RecvResult.closed RecvResult.value rfl⟩

/-! ## C2, C3, C5: behaviour after the shutdown wait has resolved -/

/-- Trace for C2: an arming poll, a poll on which the wait resolves, and
one further poll. -/
def c2trace : List PollInput :=
  [ { resolve := none, trySendOk := true, sub := .pending, tEntry := 0, tElapsed := 0 }
  , { resolve := some .value, trySendOk := true, sub := .pending, tEntry := 1, tElapsed := 0 }
  , { resolve := none, trySendOk := true, sub := .pending, tEntry := 2, tElapsed := 0 } ]

/-- C2 evaluated at its failing input: after the wait has resolved on
the second poll, the third poll polls the already-resolved wait again —
the completed future is re-polled (panicking as a coroutine resumed
after completion) and the subscription stream is not polled at all on
that invocation. -/
theorem fired_wait_is_polled_again :
    (run (initEndpoint 7 2 3 "ep") c2trace).map StepResult.ev =
        [ { polledWait := false, triedUnsub := false, polledSource := true }
        , { polledWait := true, triedUnsub := true, polledSource := true }
        , { polledWait := true, triedUnsub := false, polledSource := false } ] ∧
      (run (initEndpoint 7 2 3 "ep") c2trace).map StepResult.out =
        [ PollOutcome.pending
        , PollOutcome.pending
        , PollOutcome.panicked Panic.futurePolledAfterCompletion ] := by
  decide

/-- Trace for C3: the shutdown signal has fired before the first poll
and three messages are already buffered, available on successive
polls. -/
def c3trace : List PollInput :=
  [ { resolve := some .value, trySendOk := true, sub := .ready (some "m1"), tEntry := 0, tElapsed := 0 }
  , { resolve := some .value, trySendOk := true, sub := .ready (some "m2"), tEntry := 1, tElapsed := 0 }
  , { resolve := none, trySendOk := true, sub := .ready (some "m3"), tEntry := 2, tElapsed := 0 } ]

/-- C3 evaluated at its failing input: with three buffered messages and
shutdown fired, the stream yields only "m1" and "m2"; the third poll
panics on the completed wait without ever polling the subscription
stream, so the third buffered message is never drained and the stream
never terminates normally. -/
theorem buffered_messages_not_drained :
    (yielded (run (initEndpoint 7 2 3 "ep") c3trace)).map Request.message =
        ["m1", "m2"] ∧
      (run (initEndpoint 7 2 3 "ep") c3trace).map
          (fun r => r.ev.polledSource) = [true, true, false] ∧
      (run (initEndpoint 7 2 3 "ep") c3trace).map StepResult.out =
        [ PollOutcome.item
            { issued := 0, stats := 2, client := 3, message := "m1", endpoint := "ep" }
        , PollOutcome.item
            { issued := 1, stats := 2, client := 3, message := "m2", endpoint := "ep" }
        , PollOutcome.panicked Panic.futurePolledAfterCompletion ] := by
  decide

/-- Trace for C5: an arming poll, then the subscription stream ends on
the same poll on which the wait resolves by closure, then one further
poll on which the ended stream would keep reporting its end. -/
def c5trace : List PollInput :=
  [ { resolve := none, trySendOk := true, sub := .pending, tEntry := 0, tElapsed := 0 }
  , { resolve := some .closed, trySendOk := true, sub := .ready none, tEntry := 1, tElapsed := 0 }
  , { resolve := none, trySendOk := true, sub := .ready none, tEntry := 2, tElapsed := 0 } ]

/-- C5 evaluated at its failing input: the second poll returns the
end-of-sequence signal, but the very next poll panics on the completed
wait instead of yielding end-of-sequence again, so the stream does not
yield end-of-sequence on every poll after its end. -/
theorem stream_end_is_not_permanent :
    (run (initEndpoint 7 2 3 "ep") c5trace).map StepResult.out =
      [ PollOutcome.pending
      , PollOutcome.done
      , PollOutcome.panicked Panic.futurePolledAfterCompletion ] := by
  decide

/-! ## C6: `stop` -/

/-- C6: `stop` returns the fixed generic I/O error "failed to
unsubscribe" exactly when the transport reports unsubscribe failure,
returns success exactly when the transport confirms, and leaves the
stats registry untouched in either case. -/
theorem stop_error_exactly_on_transport_failure :
    ∀ (reg : Endpoints) (t : Except TransportError Unit),
      (stop reg t).1 = reg ∧
        (stop reg t).2 =
          match t with
          | .ok _ => Except.ok ()
          | .error _ =>
              Except.error
                { kind := ErrorKind.other, message := "failed to unsubscribe" } := by
  intro reg t
  rcases t with e | u <;> exact ⟨rfl, rfl⟩

/-! ## C9: the stats projection -/

/-- C9: projecting the internal per-endpoint record to the public
snapshot copies all ten shared fields unchanged, and the result does not
depend on `schema` in any way — the snapshot type has no `schema` field
and two records differing only in `schema` project to the same
snapshot. -/
theorem stats_projection_drops_only_schema :
    ∀ inner : Inner,
      (Stats.ofInner inner).kind = inner.kind ∧
        (Stats.ofInner inner).name = inner.name ∧
        (Stats.ofInner inner).subject = inner.subject ∧
        (Stats.ofInner inner).metadata = inner.metadata ∧
        (Stats.ofInner inner).requests = inner.requests ∧
        (Stats.ofInner inner).errors = inner.errors ∧
        (Stats.ofInner inner).processing_time = inner.processing_time ∧
        (Stats.ofInner inner).average_processing_time =
          inner.average_processing_time ∧
        (Stats.ofInner inner).last_error = inner.last_error ∧
        (Stats.ofInner inner).data = inner.data ∧
        ∀ sch : Option Schema,
          Stats.ofInner { inner with schema := sch } = Stats.ofInner inner := by
  intro inner
  exact ⟨rfl, rfl, rfl, rfl, rfl, rfl, rfl, rfl, rfl, rfl, fun sch => rfl⟩

/-! ## C10: the arming poll -/

/-- C10: the first poll takes the raw receiver and boxes the wait
without polling it, so even if the shutdown signal fired before the
first poll no unsubscribe command is attempted or enqueued on that poll
— while a second poll with the signal fired does enqueue it. -/
theorem arming_poll_enqueues_nothing (sid st cl : Nat) (nm : String)
    (i : PollInput) :
    (pollNext (initEndpoint sid st cl nm) i).ev.polledWait = false ∧
      (pollNext (initEndpoint sid st cl nm) i).ev.triedUnsub = false ∧
      (pollNext (initEndpoint sid st cl nm) i).state.requests.sender = [] ∧
      (pollNext (initEndpoint sid st cl nm) i).state.shutdown_future =
        some FutState.running ∧
      (runState (initEndpoint sid st cl nm)
          [ PollInput.mk (some RecvResult.value) true SubPoll.pending 0 0
          , PollInput.mk (some RecvResult.value) true SubPoll.pending 1 0 ]
        ).requests.sender = [Command.unsubscribe sid none] := by
  rw [pollNext_init]
  refine ⟨?_, ?_, ?_, ?_, ?_⟩
  · simp
  · simp
  · simp [armedEndpoint, initEndpoint]
  · simp [armedEndpoint, initEndpoint]
  · rfl

end Nats
